import Mathlib

/-!
Shallow embedding of the analytics core of the mint-reporting backend.

The definitions below are translated from the Rust sources:
  backend/src/database/queries.rs   (AnalyticsQueries::execute_custom_query)
  backend/src/handlers/websocket.rs (execute_websocket_query)
  backend/src/handlers/analytics.rs (execute_query, run_aggregation)
  backend/src/handlers/data.rs      (preview_data row limit)
  backend/src/models/query.rs       (QueryResult, AggregationOperation, QueryCache)

Modelling conventions:
  * The embedded engine connection is an oracle `Conn : String → Except String Stmt`
    standing for `Connection::prepare` followed by `Statement::query`: it either
    fails (engine error) or yields the prepared statement's column names and the
    list of native rows the cursor will produce.
  * A native cell is a `NativeValue`; `float64` carries `some q` when
    `serde_json::Number::from_f64` would accept the double as the finite rational
    `q`, and `none` when the double is non-finite (NaN/inf), in which case the
    code substitutes the number 0.  `text` carries the already lossily decoded
    string (`String::from_utf8_lossy` is a collaborator).  `otherKind` stands for
    every `duckdb::types::ValueRef` variant other than
    Null/Int/BigInt/Double/Text/Blob (Boolean, HugeInt, Timestamp, ...).
  * Logging (`debug!`, `warn!`, ...) has no observable effect and is dropped.
  * `serde_json` object iteration order is modelled by the order of the
    association list carried by the model.
-/

/-- Generic JSON-compatible cell value, as produced by the two value mappers
(`serde_json::Value` restricted to what the mappers emit). -/
inductive Json where
  | null : Json
  | num : ℚ → Json
  | str : String → Json
  deriving DecidableEq

/-- One engine-native cell (`duckdb::types::ValueRef`), collapsed to the kinds
the repository's match arms distinguish.  `int32` is `ValueRef::Int`, `int64`
is `ValueRef::BigInt`, `float64` is `ValueRef::Double`, `otherKind` is every
remaining variant. -/
inductive NativeValue where
  | null : NativeValue
  | int32 : ℤ → NativeValue
  | int64 : ℤ → NativeValue
  | float64 : Option ℚ → NativeValue
  | text : String → NativeValue
  | blob : NativeValue
  | otherKind : NativeValue
  deriving DecidableEq

/-- A prepared-and-queried statement: its column names (with the
`unknown` fallback already applied) and the native rows its cursor yields. -/
structure Stmt where
  columnNames : List String
  rows : List (List NativeValue)

/-- The shared engine connection, as an oracle from SQL text to the prepared
statement or an engine error (models `conn.prepare(sql)?` + `stmt.query([])?`). -/
abbrev Conn := String → Except String Stmt

/-- ASCII lowercasing of one character, the fragment of Rust
`str::to_lowercase` relevant to the ASCII denylist needles. -/
def lowChar (c : Char) : Char :=
  if 65 ≤ c.toNat ∧ c.toNat ≤ 90 then Char.ofNat (c.toNat + 32) else c

/-- Lowercased character sequence of a string (models `sql.to_lowercase()`). -/
def lowerChars (s : String) : List Char :=
  s.toList.map lowChar

/-- Does the first character list start with the second? -/
def leadsWith : List Char → List Char → Bool
  | _, [] => true
  | [], _ :: _ => false
  | a :: as, b :: bs => a == b && leadsWith as bs

/-- Substring search over character lists (models Rust `str::contains`). -/
def hasSub : List Char → List Char → Bool
  | [], pat => pat.isEmpty
  | a :: rest, pat => leadsWith (a :: rest) pat || hasSub rest pat

/-- Case-insensitive containment: lowercase the haystack, then search for the
(already lowercase, ASCII) needle — models `sql.to_lowercase().contains(pat)`. -/
def containsCI (sql pat : String) : Bool :=
  hasSub (lowerChars sql) pat.toList

/-- General-mode denylist of `execute_custom_query` (queries.rs line 233):
reject when the lowercased text contains `drop` or `delete`. -/
def denylistGeneral (sql : String) : Bool :=
  containsCI sql "drop" || containsCI sql "delete"

/-- Read-only denylist of `execute_websocket_query` (websocket.rs line 237):
additionally reject `insert` and `update`. -/
def denylistReadOnly (sql : String) : Bool :=
  containsCI sql "drop" || containsCI sql "delete" ||
    containsCI sql "insert" || containsCI sql "update"

/-- Per-cell value mapper of `execute_custom_query` (queries.rs lines 253-263):
Null, Int, BigInt, Double (non-finite coerced to 0), Text, Blob, and a wildcard
arm mapping every other kind to the string `UNKNOWN`. -/
def mapCustomCell : NativeValue → Json
  | .null => .null
  | .int32 n => .num n
  | .int64 n => .num n
  | .float64 (some q) => .num q
  | .float64 none => .num 0
  | .text s => .str s
  | .blob => .str "BLOB"
  | .otherKind => .str "UNKNOWN"

/-- Per-cell value mapper of `execute_websocket_query` (websocket.rs lines
257-265).  The source match names the variants `Integer` (the 64-bit integer
kind, `BigInt` in duckdb's `ValueRef`) and `Real` (the 64-bit float kind,
`Double`), and has no arm at all for the 32-bit `Int` kind or for any other
kind — there is no wildcard arm.  The missing arms are modelled as `none`. -/
def mapWebsocketCell : NativeValue → Option Json
  | .null => some .null
  | .int64 n => some (.num n)
  | .float64 (some q) => some (.num q)
  | .float64 none => some (.num 0)
  | .text s => some (.str s)
  | .blob => some (.str "BLOB")
  | .int32 _ => none
  | .otherKind => none

/-- Indexed cell access (models `row.get_ref(i)?`, which fails past the end of
the row). -/
def getRef (row : List NativeValue) (i : ℕ) : Except String NativeValue :=
  match row[i]? with
  | some v => .ok v
  | none => .error "InvalidColumnIndex"

/-- Sequential fallible map: the shape of every Rust loop in these handlers
that pushes into a vector and early-returns on the first error. -/
def mapME {α β : Type} (f : α → Except String β) : List α → Except String (List β)
  | [] => .ok []
  | a :: as =>
    match f a with
    | .error e => .error e
    | .ok b =>
      match mapME f as with
      | .error e => .error e
      | .ok bs => .ok (b :: bs)

/-- Result envelope (`QueryResult` in models/query.rs). -/
structure QueryResult where
  columns : List String
  data : List (List Json)
  row_count : ℕ
  deriving DecidableEq

/-- Constructor `QueryResult::new` (models/query.rs lines 116-123): `row_count`
is set to the length of `data`. -/
def QueryResult.new (columns : List String) (data : List (List Json)) : QueryResult :=
  { columns := columns, data := data, row_count := data.length }

/-- One output row of `execute_custom_query` (queries.rs lines 250-266): the
cells at indices `0..columnCount`, each read with `get_ref` and mapped. -/
def readRowCustom (columnCount : ℕ) (row : List NativeValue) :
    Except String (List Json) :=
  mapME (fun i => (getRef row i).map mapCustomCell) (List.range columnCount)

/-- The part of `execute_custom_query` after validation: prepare the statement,
read the column names, materialize every row, and build the envelope with
`row_count = data.len()` (queries.rs lines 240-274). -/
def runPrepared (conn : Conn) (sql : String) : Except String QueryResult :=
  match conn sql with
  | .error e => .error e
  | .ok stmt =>
    match mapME (readRowCustom stmt.columnNames.length) stmt.rows with
    | .error e => .error e
    | .ok data =>
      .ok { columns := stmt.columnNames, data := data, row_count := data.length }

/-- `AnalyticsQueries::execute_custom_query` (queries.rs lines 229-275).  The
`tableName` argument is only interpolated into a debug log line in the source
and has no other use, so it is ignored here. -/
def executeCustomQuery (conn : Conn) (tableName sql : String) :
    Except String QueryResult :=
  if denylistGeneral sql then .error "Destructive operations are not allowed"
  else runPrepared conn sql

/-- One output row of `execute_websocket_query` (websocket.rs lines 253-270):
a column-name-keyed object, modelled as the association list built in column
order.  A cell kind with no match arm in the source is modelled as an error. -/
def readRowWs (columnNames : List String) (row : List NativeValue) :
    Except String (List (String × Json)) :=
  mapME
    (fun p =>
      match getRef row p.1 with
      | .error e => .error e
      | .ok v =>
        match mapWebsocketCell v with
        | some j => .ok (p.2, j)
        | none => .error "unmatched value kind")
    columnNames.enum

/-- The row-collection loop of `execute_websocket_query` (websocket.rs lines
251-277): push each mapped row, and break with success once the collection
holds 1000 rows (`if data.len() >= 1000 { break; }` after the push). -/
def wsCollect (columnNames : List String) :
    List (List NativeValue) → ℕ → Except String (List (List (String × Json)))
  | [], _ => .ok []
  | r :: rs, acc =>
    match readRowWs columnNames r with
    | .error e => .error e
    | .ok obj =>
      if acc + 1 ≥ 1000 then .ok [obj]
      else
        match wsCollect columnNames rs (acc + 1) with
        | .error e => .error e
        | .ok objs => .ok (obj :: objs)

/-- `execute_websocket_query` (websocket.rs lines 228-280): read-only denylist
first, then prepare, then collect at most 1000 mapped rows. -/
def executeWebsocketQuery (conn : Conn) (sql : String) :
    Except String (List (List (String × Json))) :=
  if denylistReadOnly sql then
    .error "Only SELECT queries are allowed via WebSocket"
  else
    match conn sql with
    | .error e => .error e
    | .ok stmt => wsCollect stmt.columnNames stmt.rows 0

/-- Row limit of the preview path (data.rs line 147):
`request.limit.unwrap_or(1000).min(10000)`. -/
def previewLimit (requested : Option ℕ) : ℕ :=
  min (requested.getD 1000) 10000

/-- Aggregation operation (models/query.rs lines 29-33); the source field
named `alias` is rendered `aliasName` here because `alias` is a Lean keyword. -/
structure AggregationOperation where
  field : String
  operation : String
  aliasName : Option String
  deriving DecidableEq

/-- `AggregationOperation::get_alias` (models/query.rs lines 152-157): the
explicit alias when present, else `"{operation}_{field}"`. -/
def AggregationOperation.get_alias (op : AggregationOperation) : String :=
  match op.aliasName with
  | some a => a
  | none => op.operation ++ "_" ++ op.field

/-- One entry of the `aggregations` array of an aggregation response
(`AggregationSummary`, models/query.rs lines 44-48). -/
structure AggregationSummary where
  field : String
  operation : String
  result : Json
  deriving DecidableEq

/-- A filter value as the `run_aggregation` filter loop classifies it
(analytics.rs lines 84-89): textual (`value.as_str()` succeeds), numeric
(`value.as_f64()` succeeds; the constructor carries the decimal rendering the
Rust `{}` formatter would produce for the double), or anything else (skipped). -/
inductive FilterVal where
  | text : String → FilterVal
  | numeric : String → FilterVal
  | otherVal : FilterVal
  deriving DecidableEq

/-- Aggregation request (models/query.rs lines 20-26).  The `filters` JSON
object is modelled as an association list in the map's iteration order; a
non-object `filters` value corresponds to `none`. -/
structure AggregationRequest where
  data_source_id : String
  operations : List AggregationOperation
  group_by : Option (List String)
  filters : Option (List (String × FilterVal))
  limit : Option ℕ

/-- Table-name derivation (analytics.rs line 43 and elsewhere): replace every
hyphen with an underscore and add the `data_source_` namespace. -/
def tableNameFor (dataSourceId : String) : String :=
  "data_source_" ++ ⟨dataSourceId.data.map (fun c => if c == '-' then '_' else c)⟩

/-- One WHERE condition of the filter loop (analytics.rs lines 85-89). -/
def filterCondition (field : String) : FilterVal → Option String
  | .text s => some (field ++ " LIKE '%" ++ s ++ "%'")
  | .numeric d => some (field ++ " = " ++ d)
  | .otherVal => none

/-- SQL aggregate expression for one operation (analytics.rs lines 51-61);
an unsupported operation name is a validation error naming the operation. -/
def sqlOpFor (op : AggregationOperation) : Except String String :=
  match op.operation with
  | "sum" => .ok ("SUM(" ++ op.field ++ ")")
  | "avg" => .ok ("AVG(" ++ op.field ++ ")")
  | "count" => .ok ("COUNT(" ++ op.field ++ ")")
  | "min" => .ok ("MIN(" ++ op.field ++ ")")
  | "max" => .ok ("MAX(" ++ op.field ++ ")")
  | "distinct_count" => .ok ("COUNT(DISTINCT " ++ op.field ++ ")")
  | _ => .error ("Unsupported aggregation operation: " ++ op.operation)

/-- One select-list entry, `"{sql_op} AS {alias}"` (analytics.rs line 63). -/
def selectPartFor (op : AggregationOperation) : Except String String :=
  match sqlOpFor op with
  | .error e => .error e
  | .ok s => .ok (s ++ " AS " ++ op.get_alias)

/-- The aggregate select-list entries in operation order, stopping at the
first unsupported operation (the loop of analytics.rs lines 49-69). -/
def aggSelectParts (ops : List AggregationOperation) : Except String (List String) :=
  mapME selectPartFor ops

/-- The summaries pushed by the same loop: one per operation, with the
field and operation names copied and `result` set to JSON null
(analytics.rs lines 64-68; the null is never overwritten later). -/
def aggSummaries (ops : List AggregationOperation) : List AggregationSummary :=
  ops.map (fun op => { field := op.field, operation := op.operation, result := Json.null })

/-- The group-by insertion loop (analytics.rs lines 72-76): each `group_by`
field is inserted at index 0 of the select list, in iteration order. -/
def buildSelectList (groupBy : Option (List String)) (parts : List String) : List String :=
  match groupBy with
  | none => parts
  | some gb => gb.foldl (fun acc field => field :: acc) parts

/-- The SQL text built by `run_aggregation` (analytics.rs lines 46-107):
select list (group-by fields then aggregates), FROM the resolved table, then
the optional WHERE, GROUP BY and LIMIT clauses. -/
def buildAggregationQuery (req : AggregationRequest) : Except String String :=
  match aggSelectParts req.operations with
  | .error e => .error e
  | .ok parts =>
    let selectList := buildSelectList req.group_by parts
    let base :=
      "SELECT " ++ String.intercalate ", " selectList ++ " FROM " ++
        tableNameFor req.data_source_id
    let withFilters :=
      match req.filters with
      | none => base
      | some fs =>
        let conditions := fs.filterMap (fun p => filterCondition p.1 p.2)
        if conditions.isEmpty then base
        else base ++ " WHERE " ++ String.intercalate " AND " conditions
    let withGroup :=
      match req.group_by with
      | none => withFilters
      | some gb =>
        if gb.isEmpty then withFilters
        else withFilters ++ " GROUP BY " ++ String.intercalate ", " gb
    match req.limit with
    | none => .ok withGroup
    | some n => .ok (withGroup ++ " LIMIT " ++ toString n)

/-- Aggregation response (`AggregationResult`, models/query.rs lines 36-41). -/
structure AggregationResult where
  columns : List String
  data : List (List Json)
  row_count : ℕ
  aggregations : List AggregationSummary
  deriving DecidableEq

/-- `run_aggregation` (analytics.rs lines 34-121): build the SQL text, run it
through `execute_custom_query`, and wrap the envelope together with the
summaries (whose `result` fields are still JSON null). -/
def runAggregation (conn : Conn) (req : AggregationRequest) :
    Except String AggregationResult :=
  match buildAggregationQuery req with
  | .error e => .error e
  | .ok query =>
    match executeCustomQuery conn (tableNameFor req.data_source_id) query with
    | .error e => .error e
    | .ok result =>
      .ok { columns := result.columns, data := result.data,
            row_count := result.row_count,
            aggregations := aggSummaries req.operations }

/-- Cache entry (`QueryCache`, models/query.rs lines 97-105).  Time instants
are rationals measured in seconds; the random uuid `id` is a collaborator and
is passed in explicitly, as is the ambient `Utc::now()` creation instant. -/
structure QueryCache where
  id : String
  query_hash : String
  query_sql : String
  result_data : QueryResult
  data_source_id : Option String
  created_at : ℚ
  expires_at : ℚ

/-- `QueryCache::new` (models/query.rs lines 160-179): `created_at` is the
creation instant and `expires_at` is that instant plus `ttl_seconds`. -/
def QueryCache.new (id query_hash query_sql : String) (result_data : QueryResult)
    (data_source_id : Option String) (ttl_seconds : ℤ) (now : ℚ) : QueryCache :=
  { id := id, query_hash := query_hash, query_sql := query_sql,
    result_data := result_data, data_source_id := data_source_id,
    created_at := now, expires_at := now + ttl_seconds }

/-- `QueryCache::is_expired` (models/query.rs lines 181-183):
`Utc::now() > self.expires_at`, with the ambient now passed in explicitly. -/
def QueryCache.is_expired (c : QueryCache) (now : ℚ) : Bool :=
  decide (c.expires_at < now)

/-- A connection whose every statement yields no columns and no rows. -/
def connEmpty : Conn := fun _ => .ok { columnNames := [], rows := [] }

/-- A connection yielding the two-row statement of the repository's
`test_query_result_creation` unit test. -/
def connRows : Conn := fun _ =>
  .ok { columnNames := ["id", "name"],
        rows := [[NativeValue.int64 1, NativeValue.text "Alice"],
                 [NativeValue.int64 2, NativeValue.text "Bob"]] }

/-- The envelope `execute_custom_query` builds from `connRows`. -/
def resRows : QueryResult :=
  { columns := ["id", "name"],
    data := [[Json.num 1, Json.str "Alice"], [Json.num 2, Json.str "Bob"]],
    row_count := 2 }

/-- A statement whose cursor yields 1005 single-null rows, to drive the
streaming row cap. -/
def stmtBig : Stmt :=
  { columnNames := ["a"], rows := List.replicate 1005 [NativeValue.null] }

/-- A connection returning `stmtBig` for every statement. -/
def connBig : Conn := fun _ => .ok stmtBig

/-- The aggregation request of the spec's end-to-end scenario:
one `avg` over `value`, grouped by `region`. -/
def reqAvg : AggregationRequest :=
  { data_source_id := "sales-2024",
    operations := [{ field := "value", operation := "avg", aliasName := none }],
    group_by := some ["region"], filters := none, limit := none }

/-- A connection yielding one row per region for the compiled
group-by query. -/
def connAgg : Conn := fun _ =>
  .ok { columnNames := ["region", "avg_value"],
        rows := [[NativeValue.text "north", NativeValue.float64 (some 10)],
                 [NativeValue.text "south", NativeValue.float64 (some 20)]] }

/-- The aggregation response produced from `connAgg` and `reqAvg`. -/
def aggRes : AggregationResult :=
  { columns := ["region", "avg_value"],
    data := [[Json.str "north", Json.num 10], [Json.str "south", Json.num 20]],
    row_count := 2,
    aggregations := [{ field := "value", operation := "avg", result := Json.null }] }

/-- A cache entry created at instant 0 with TTL 300 seconds. -/
def cacheProbe : QueryCache :=
  QueryCache.new "id-1" "hash-1" "SELECT 1" (QueryResult.new [] []) none 300 0

/-- Successful `mapME` preserves the element count. -/
theorem mapME_ok_length {α β : Type} (f : α → Except String β) :
    ∀ (l : List α) (l2 : List β), mapME f l = .ok l2 → l2.length = l.length := by
  intro l
  induction l with
  | nil =>
    intro l2 h
    simp only [mapME] at h
    injection h with h
    subst h
    rfl
  | cons a as ih =>
    intro l2 h
    simp only [mapME] at h
    split at h
    · exact Except.noConfusion h
    · split at h
      · exact Except.noConfusion h
      · injection h with h
        subst h
        rename_i bs hrest
        simp [ih bs hrest]

/-- Every element of a successful `mapME` output is the image of an input. -/
theorem mapME_ok_mem {α β : Type} (f : α → Except String β) :
    ∀ (l : List α) (l2 : List β), mapME f l = .ok l2 →
      ∀ b ∈ l2, ∃ a ∈ l, f a = .ok b := by
  intro l
  induction l with
  | nil =>
    intro l2 h b hb
    simp only [mapME] at h
    injection h with h
    subst h
    simp at hb
  | cons a as ih =>
    intro l2 h b hb
    simp only [mapME] at h
    cases hfa : f a with
    | error e => rw [hfa] at h; simp at h
    | ok b1 =>
      rw [hfa] at h
      cases hrest : mapME f as with
      | error e => rw [hrest] at h; simp at h
      | ok bs =>
        rw [hrest] at h
        simp only [Except.ok.injEq] at h
        subst h
        rcases List.mem_cons.mp hb with hb1 | hb2
        · exact ⟨a, List.mem_cons_self a as, hb1 ▸ hfa⟩
        · obtain ⟨a2, ha2, hfa2⟩ := ih bs hrest b hb2
          exact ⟨a2, List.mem_cons_of_mem a ha2, hfa2⟩

/-- A successfully read custom row has exactly `columnCount` cells. -/
theorem readRowCustom_ok_length {n : ℕ} {row : List NativeValue} {js : List Json}
    (h : readRowCustom n row = .ok js) : js.length = n := by
  have := mapME_ok_length _ _ _ h
  simpa using this

/-- The websocket collection loop never returns more than `1000 - acc` rows. -/
theorem wsCollect_ok_length (cols : List String) :
    ∀ (rows : List (List NativeValue)) (acc : ℕ) (out : List (List (String × Json))),
      acc < 1000 → wsCollect cols rows acc = .ok out → out.length ≤ 1000 - acc := by
  intro rows
  induction rows with
  | nil =>
    intro acc out _ h
    simp only [wsCollect] at h
    injection h with h
    subst h
    simp
  | cons r rs ih =>
    intro acc out hacc h
    simp only [wsCollect] at h
    split at h
    · exact Except.noConfusion h
    · split at h
      · injection h with h
        subst h
        simp
        omega
      · split at h
        · exact Except.noConfusion h
        · injection h with h
          subst h
          rename_i hcap objs hrest
          have := ih (acc + 1) objs (by omega) hrest
          simp
          omega

/-- When every row maps successfully, the websocket loop succeeds and returns
exactly `min (1000 - acc) rows.length` rows. -/
theorem wsCollect_ok_of_good (cols : List String) :
    ∀ (rows : List (List NativeValue)) (acc : ℕ),
      acc < 1000 →
      (∀ r ∈ rows, ∃ obj, readRowWs cols r = .ok obj) →
      ∃ out, wsCollect cols rows acc = .ok out ∧
        out.length = min (1000 - acc) rows.length := by
  intro rows
  induction rows with
  | nil =>
    intro acc hacc _
    exact ⟨[], rfl, by simp⟩
  | cons r rs ih =>
    intro acc hacc hgood
    obtain ⟨obj, hobj⟩ := hgood r (List.mem_cons_self r rs)
    by_cases hcap : acc + 1 ≥ 1000
    · refine ⟨[obj], ?_, ?_⟩
      · simp only [wsCollect, hobj]
        rw [if_pos hcap]
      · simp
        omega
    · obtain ⟨out, hout, hlen⟩ :=
        ih (acc + 1) (by omega) (fun r2 hr2 => hgood r2 (List.mem_cons_of_mem r hr2))
      refine ⟨obj :: out, ?_, ?_⟩
      · simp only [wsCollect, hobj]
        rw [if_neg hcap, hout]
      · simp [hlen]
        omega

/-- Claim C1: general-mode validation of `execute_custom_query`.  Any SQL text whose
lowercase form contains `drop` or `delete` is answered with the
forbidden-statement error for every connection state (so before any statement
is prepared or executed); any text containing neither proceeds to the
prepare-and-execute phase `runPrepared`. -/
theorem general_denylist_gates_custom_query :
    ∀ (conn : Conn) (tbl sql : String),
      ((containsCI sql "drop" = true ∨ containsCI sql "delete" = true) →
        executeCustomQuery conn tbl sql =
          .error "Destructive operations are not allowed") ∧
      (containsCI sql "drop" = false → containsCI sql "delete" = false →
        executeCustomQuery conn tbl sql = runPrepared conn sql) := by
  intro conn tbl sql
  constructor
  · intro h
    have hd : denylistGeneral sql = true := by
      rcases h with h | h <;> simp [denylistGeneral, h]
    simp [executeCustomQuery, hd]
  · intro h1 h2
    have hd : denylistGeneral sql = false := by
      simp [denylistGeneral, h1, h2]
    simp [executeCustomQuery, hd]

/-- Witness for C1 at two concrete statements. -/
theorem general_denylist_gates_custom_query_witness :
    executeCustomQuery connEmpty "t" "DROP TABLE users" =
      .error "Destructive operations are not allowed" ∧
    executeCustomQuery connEmpty "t" "SELECT 1" = runPrepared connEmpty "SELECT 1" :=
  ⟨(general_denylist_gates_custom_query connEmpty "t" "DROP TABLE users").1
      (Or.inl (by decide)),
   (general_denylist_gates_custom_query connEmpty "t" "SELECT 1").2
      (by decide) (by decide)⟩

/-- Counterexample for claim C2: the SQL text `INSERT INTO drops VALUES (1)` contains
`insert` (case-insensitively), yet the general-mode validator rejects it,
because the text also contains `drop` inside the identifier `drops` — so it
does not pass the general-mode denylist check as the claim states. -/
theorem insert_text_rejected_by_general_mode :
    containsCI "INSERT INTO drops VALUES (1)" "insert" = true ∧
    executeCustomQuery connEmpty "t" "INSERT INTO drops VALUES (1)" =
      .error "Destructive operations are not allowed" := by
  exact ⟨by decide, by rfl⟩

/-- Claim C2 as amended: any SQL text containing `insert` (case-insensitively) is
rejected by the read-only websocket validator before execution; if the text
moreover contains neither `drop` nor `delete` (case-insensitively), the
general-mode validator does not reject it and proceeds to prepare. -/
theorem readonly_rejects_insert_general_accepts :
    ∀ (conn : Conn) (tbl sql : String),
      (containsCI sql "insert" = true →
        executeWebsocketQuery conn sql =
          .error "Only SELECT queries are allowed via WebSocket") ∧
      (containsCI sql "insert" = true → containsCI sql "drop" = false →
        containsCI sql "delete" = false →
        executeCustomQuery conn tbl sql = runPrepared conn sql) := by
  intro conn tbl sql
  constructor
  · intro h
    have hd : denylistReadOnly sql = true := by
      simp [denylistReadOnly, h]
    simp [executeWebsocketQuery, hd]
  · intro h1 h2 h3
    have hd : denylistGeneral sql = false := by
      simp [denylistGeneral, h2, h3]
    simp [executeCustomQuery, hd]

/-- Witness for the amended C2 at a concrete INSERT statement. -/
theorem readonly_rejects_insert_general_accepts_witness :
    executeWebsocketQuery connEmpty "INSERT INTO t VALUES (1)" =
      .error "Only SELECT queries are allowed via WebSocket" ∧
    executeCustomQuery connEmpty "tbl" "INSERT INTO t VALUES (1)" =
      runPrepared connEmpty "INSERT INTO t VALUES (1)" :=
  ⟨(readonly_rejects_insert_general_accepts connEmpty "tbl" "INSERT INTO t VALUES (1)").1
      (by decide),
   (readonly_rejects_insert_general_accepts connEmpty "tbl" "INSERT INTO t VALUES (1)").2
      (by decide) (by decide) (by decide)⟩

/-- Claim C3: every envelope produced by `execute_custom_query` has
`row_count = data.length` and every row as long as the column list, and
`QueryResult.new` always sets `row_count` to the length of `data`. -/
theorem envelope_invariants :
    (∀ (conn : Conn) (tbl sql : String) (res : QueryResult),
        executeCustomQuery conn tbl sql = .ok res →
        res.row_count = res.data.length ∧
        ∀ row ∈ res.data, row.length = res.columns.length) ∧
    (∀ (cols : List String) (d : List (List Json)),
        (QueryResult.new cols d).row_count = d.length) := by
  constructor
  · intro conn tbl sql res h
    unfold executeCustomQuery at h
    split at h
    · exact Except.noConfusion h
    · unfold runPrepared at h
      cases hc : conn sql with
      | error e => rw [hc] at h; simp at h
      | ok stmt =>
        rw [hc] at h
        dsimp only at h
        cases hm : mapME (readRowCustom stmt.columnNames.length) stmt.rows with
        | error e => rw [hm] at h; simp at h
        | ok data =>
          rw [hm] at h
          simp only [Except.ok.injEq] at h
          subst h
          constructor
          · rfl
          · intro row hrow
            obtain ⟨r, _, hr⟩ := mapME_ok_mem _ _ _ hm row hrow
            exact readRowCustom_ok_length hr
  · intro cols d
    rfl

/-- Witness for C3: the two-row statement of the repository's unit test. -/
theorem envelope_invariants_witness :
    (resRows.row_count = resRows.data.length ∧
      ∀ row ∈ resRows.data, row.length = resRows.columns.length) ∧
    (QueryResult.new ["a"] [[Json.null]]).row_count = [[Json.null]].length :=
  ⟨envelope_invariants.1 connRows "t" "SELECT id, name FROM t" resRows (by rfl),
   envelope_invariants.2 ["a"] [[Json.null]]⟩

/-- Claim C4: the function `get_alias` returns the explicit alias when present and
`"{operation}_{field}"` otherwise. -/
theorem get_alias_spec :
    ∀ (op : AggregationOperation),
      (∀ a, op.aliasName = some a → op.get_alias = a) ∧
      (op.aliasName = none → op.get_alias = op.operation ++ "_" ++ op.field) := by
  intro op
  constructor
  · intro a h
    simp [AggregationOperation.get_alias, h]
  · intro h
    simp [AggregationOperation.get_alias, h]

/-- Witness for C4 at the spec's two example operations. -/
theorem get_alias_spec_witness :
    (AggregationOperation.mk "sales" "sum" (some "total_sales")).get_alias =
      "total_sales" ∧
    (AggregationOperation.mk "count" "avg" none).get_alias = "avg_count" :=
  ⟨(get_alias_spec (AggregationOperation.mk "sales" "sum" (some "total_sales"))).1
      "total_sales" rfl,
   (get_alias_spec (AggregationOperation.mk "count" "avg" none)).2 rfl⟩

/-- Claim C5: the aggregation compiler turns the avg-by-region request into exactly
the expected SQL text over the resolved table name, and in general each
`group_by` field is inserted at the front of the select list, so the final
select list is the reversed `group_by` list followed by the aggregate
expressions. -/
theorem aggregation_query_compilation :
    buildAggregationQuery reqAvg =
      .ok "SELECT region, AVG(value) AS avg_value FROM data_source_sales_2024 GROUP BY region" ∧
    ∀ (gb parts : List String),
      buildSelectList (some gb) parts = gb.reverse ++ parts := by
  constructor
  · rfl
  · intro gb
    induction gb with
    | nil => intro parts; rfl
    | cons g gs ih =>
      intro parts
      have h1 : buildSelectList (some (g :: gs)) parts =
          buildSelectList (some gs) (g :: parts) := rfl
      rw [h1, ih]
      simp

/-- Claim C6: the websocket row collection never exceeds 1000 rows; when validation
passes, the statement prepares and every row maps, hitting the cap is still a
success carrying exactly `min 1000` of the available rows; and the preview
path clamps the requested limit with `min 10000`, defaulting to 1000. -/
theorem row_caps :
    (∀ (conn : Conn) (sql : String) (out : List (List (String × Json))),
        executeWebsocketQuery conn sql = .ok out → out.length ≤ 1000) ∧
    (∀ (conn : Conn) (sql : String) (stmt : Stmt),
        denylistReadOnly sql = false → conn sql = .ok stmt →
        (∀ r ∈ stmt.rows, ∃ obj, readRowWs stmt.columnNames r = .ok obj) →
        ∃ out, executeWebsocketQuery conn sql = .ok out ∧
          out.length = min 1000 stmt.rows.length) ∧
    (∀ requested, previewLimit requested ≤ 10000) ∧
    previewLimit none = 1000 ∧
    (∀ n, previewLimit (some n) = min n 10000) := by
  refine ⟨?_, ?_, ?_, rfl, fun n => rfl⟩
  · intro conn sql out h
    unfold executeWebsocketQuery at h
    split at h
    · exact Except.noConfusion h
    · cases hc : conn sql with
      | error e => rw [hc] at h; simp at h
      | ok stmt =>
        rw [hc] at h
        have := wsCollect_ok_length stmt.columnNames stmt.rows 0 out (by omega) h
        omega
  · intro conn sql stmt hval hc hgood
    obtain ⟨out, hout, hlen⟩ :=
      wsCollect_ok_of_good stmt.columnNames stmt.rows 0 (by omega) hgood
    refine ⟨out, ?_, ?_⟩
    · simp [executeWebsocketQuery, hval, hc, hout]
    · simpa using hlen
  · intro requested
    cases requested with
    | none => simp [previewLimit]
    | some n => simp [previewLimit]

/-- Witness for C6: a 1005-row statement is truncated to exactly 1000 rows,
successfully, and the bound of the first conjunct holds on that output. -/
theorem row_caps_witness :
    ∃ out, executeWebsocketQuery connBig "SELECT a FROM t" = .ok out ∧
      out.length = 1000 ∧ out.length ≤ 1000 := by
  obtain ⟨out, hout, hlen⟩ :=
    row_caps.2.1 connBig "SELECT a FROM t" stmtBig (by decide) rfl
      (by
        intro r hr
        have hr2 : r = [NativeValue.null] := List.eq_of_mem_replicate hr
        subst hr2
        exact ⟨[("a", Json.null)], by rfl⟩)
  refine ⟨out, hout, ?_, row_caps.1 connBig "SELECT a FROM t" out hout⟩
  rw [hlen]
  have hlen2 : stmtBig.rows.length = 1005 := by
    show (List.replicate 1005 [NativeValue.null]).length = 1005
    rw [List.length_replicate]
  rw [hlen2]
  exact min_eq_left (by norm_num)

/-- Counterexample for claim C7: at the instant `now = expires_at` (probe entry created
at 0 with TTL 300, queried at 300) `is_expired` returns false although the
current time is not strictly before `expires_at` — the source test is
`Utc::now() > self.expires_at`, so the claimed strict-before biconditional
fails at the boundary instant. -/
theorem cache_usable_at_expiry_instant :
    cacheProbe.is_expired 300 = false ∧ ¬ ((300 : ℚ) < cacheProbe.expires_at) := by
  constructor
  · norm_num [cacheProbe, QueryCache.new, QueryCache.is_expired]
  · norm_num [cacheProbe, QueryCache.new]

/-- Claim C7 as amended: an entry is usable (`is_expired` false) iff the current
time is at most `expires_at`; an entry built with TTL 300 has
`expires_at = created_at + 300`, is not expired at its creation instant, and
is expired at any instant strictly after the TTL has elapsed. -/
theorem cache_expiry_semantics :
    ∀ (idv qh qs : String) (r : QueryResult) (ds : Option String) (now t : ℚ),
      ((QueryCache.new idv qh qs r ds 300 now).is_expired t = false ↔
        t ≤ (QueryCache.new idv qh qs r ds 300 now).expires_at) ∧
      (QueryCache.new idv qh qs r ds 300 now).expires_at =
        (QueryCache.new idv qh qs r ds 300 now).created_at + 300 ∧
      (QueryCache.new idv qh qs r ds 300 now).is_expired now = false ∧
      (now + 300 < t → (QueryCache.new idv qh qs r ds 300 now).is_expired t = true) := by
  intro idv qh qs r ds now t
  refine ⟨?_, ?_, ?_, ?_⟩
  · simp [QueryCache.new, QueryCache.is_expired, not_lt]
  · norm_num [QueryCache.new]
  · norm_num [QueryCache.new, QueryCache.is_expired]
  · intro h
    simp only [QueryCache.new, QueryCache.is_expired, decide_eq_true_eq]
    push_cast
    linarith

/-- Witness for the amended C7 at the probe entry. -/
theorem cache_expiry_semantics_witness :
    cacheProbe.is_expired 0 = false ∧ cacheProbe.is_expired 301 = true :=
  ⟨(cache_expiry_semantics "id-1" "hash-1" "SELECT 1" (QueryResult.new [] [])
      none 0 0).2.2.1,
   (cache_expiry_semantics "id-1" "hash-1" "SELECT 1" (QueryResult.new [] [])
      none 0 301).2.2.2 (by norm_num)⟩

/-- Claim C8: the two per-cell mappers are not identical.  At a 32-bit integer cell
the custom-query mapper yields the JSON number while the websocket mapper has
no matching arm, and at any other engine kind the custom-query wildcard yields
the string UNKNOWN while the websocket match again has no arm at all. -/
theorem value_mapper_mismatch :
    mapCustomCell (NativeValue.int32 42) = Json.num 42 ∧
    mapWebsocketCell (NativeValue.int32 42) = none ∧
    mapCustomCell NativeValue.otherKind = Json.str "UNKNOWN" ∧
    mapWebsocketCell NativeValue.otherKind = none :=
  ⟨rfl, rfl, rfl, rfl⟩

/-- Claim C9: the function `execute_custom_query` is independent of its `table_name` argument —
for any connection state and SQL text, any two table names give identical
results (the argument is only ever logged in the source). -/
theorem custom_query_ignores_table_name :
    ∀ (conn : Conn) (t1 t2 sql : String),
      executeCustomQuery conn t1 sql = executeCustomQuery conn t2 sql :=
  fun _ _ _ _ => rfl

/-- Claim C10: every successful `run_aggregation` response carries one summary per
requested operation, each with the operation's field and name and with
`result` equal to JSON null, whatever data the executed query returned. -/
theorem aggregation_summaries_stay_null :
    ∀ (conn : Conn) (req : AggregationRequest) (res : AggregationResult),
      runAggregation conn req = .ok res →
      res.aggregations = req.operations.map
        (fun op => { field := op.field, operation := op.operation,
                     result := Json.null }) := by
  intro conn req res h
  unfold runAggregation at h
  split at h
  · exact Except.noConfusion h
  · rename_i query hq
    cases hc : executeCustomQuery conn (tableNameFor req.data_source_id) query with
    | error e => rw [hc] at h; simp at h
    | ok result =>
      rw [hc] at h
      dsimp only at h
      simp only [Except.ok.injEq] at h
      subst h
      rfl

/-- Witness for C10: a concrete two-region result whose summaries are null. -/
theorem aggregation_summaries_stay_null_witness :
    runAggregation connAgg reqAvg = .ok aggRes ∧
    aggRes.aggregations = reqAvg.operations.map
      (fun op => { field := op.field, operation := op.operation,
                   result := Json.null }) :=
  ⟨by rfl, aggregation_summaries_stay_null connAgg reqAvg aggRes (by rfl)⟩
